import Mathlib

/-!
Shallow embedding of the Event-Management-System repository (EventModel.js,
AuthModel.js) and verification of the frozen claims about it.

JavaScript conventions modelled here:
* a possibly-absent string field is `Option String` (`none` = `undefined`/absent,
  `some ""` = present but empty);
* the JS truthiness test `!x` on such a field fails exactly when the field is
  `none` or `some ""`;
* `localStorage` persistence is a component of the state holding the last
  collection written (`none` = key never written);
* a thrown `Error` is the `.error` case of an `Except String` result, paired
  with the post-state (mutations before the throw survive, as they do in JS);
* timestamps (`new Date().toISOString()`) are an explicit `now : String`
  parameter.
-/

/-- JS truthiness of a possibly-absent string: `undefined`, `null` and `""`
are falsy, every other string (including whitespace-only) is truthy. -/
def jsTruthy : Option String → Bool
  | none => false
  | some s => s ≠ ""

/-- `x || d` for a possibly-absent string `x` and a string default `d`,
as in `eventData.createdBy || 'Unknown'`. -/
def jsOrStr (x : Option String) (d : String) : String :=
  match x with
  | none => d
  | some s => if s = "" then d else s

/-- JS `String.prototype.trim()`: drop whitespace from both ends (ASCII
whitespace; the sources only ever hold ASCII data). Defined over the
character list so that it evaluates inside the kernel. -/
def jsTrim (s : String) : String :=
  ⟨((s.data.dropWhile Char.isWhitespace).reverse.dropWhile Char.isWhitespace).reverse⟩

/-- JS `String.prototype.toLowerCase()` (ASCII case mapping), defined over
the character list so that it evaluates inside the kernel. -/
def jsToLower (s : String) : String :=
  ⟨s.data.map Char.toLower⟩

/-- All-digit parse used by `jsParseInt`. -/
def parseDigits : List Char → Option Nat
  | [] => none
  | ds =>
      if ds.all Char.isDigit then
        some (ds.foldl (fun n c => 10 * n + (c.toNat - 48)) 0)
      else none

/-- JS `parseInt`, modelled on canonical decimal strings (an optional sign
followed by digits); anything else is `NaN` (`none`), which matches no id. -/
def jsParseInt (s : String) : Option Int :=
  match s.data with
  | '-' :: ds => (parseDigits ds).map (fun n => -(n : Int))
  | ds => (parseDigits ds).map (fun n => (n : Int))

/-- An Event record as built by `EventModel.addEvent`
(src/unnamed/part_001, lines 57-67). -/
structure Event where
  id : Int
  title : String
  description : String
  date : String
  time : String
  location : String
  createdBy : String
  createdAt : String
  updatedAt : Option String
deriving Repr, DecidableEq, Inhabited

/-- The `eventData` argument of `addEvent` / `updateEvent`: every field may be
absent. -/
structure EventInput where
  title : Option String := none
  description : Option String := none
  date : Option String := none
  time : Option String := none
  location : Option String := none
  createdBy : Option String := none
deriving Repr, DecidableEq

/-- The state of an `EventModel` instance: the in-memory collection, the
next-id counter, and the `events` localStorage key. -/
structure EventStore where
  events : List Event
  nextId : Int
  persisted : Option (List Event)
deriving Repr, DecidableEq

/-- `getNextId` (src/unnamed/part_001, line 41):
`events.length > 0 ? Math.max(...events.map(e => e.id)) + 1 : 1`. -/
def getNextId (events : List Event) : Int :=
  match events.map (·.id) with
  | [] => 1
  | i :: is => is.foldl max i + 1

/-- The `EventModel` constructor: load the collection from the `events`
localStorage key (missing key parses to `[]`) and seed the counter with
`getNextId`. -/
def EventStore.ofPersisted (saved : Option (List Event)) : EventStore :=
  let events := saved.getD []
  { events := events, nextId := getNextId events, persisted := saved }

/-- The required-fields validation shared by `addEvent` and `updateEvent`:
`!eventData.title || !eventData.description || !eventData.date ||
 !eventData.time || !eventData.location` (JS truthiness, no trimming). -/
def missingRequired (d : EventInput) : Bool :=
  !jsTruthy d.title || !jsTruthy d.description || !jsTruthy d.date ||
    !jsTruthy d.time || !jsTruthy d.location

/-- `addEvent` (src/unnamed/part_001, lines 50-72): validate, build the record
(trimming `title`, `description`, `location`; `date`/`time` stored as given;
`createdBy` defaulted to `'Unknown'` when falsy), bump `nextId`, push,
persist. -/
def addEvent (st : EventStore) (d : EventInput) (now : String) :
    Except String Event × EventStore :=
  if missingRequired d then
    (.error "All fields are required", st)
  else
    let e : Event :=
      { id := st.nextId
        title := jsTrim (d.title.getD "")
        description := jsTrim (d.description.getD "")
        date := d.date.getD ""
        time := d.time.getD ""
        location := jsTrim (d.location.getD "")
        createdBy := jsOrStr d.createdBy "Unknown"
        createdAt := now
        updatedAt := none }
    let events := st.events ++ [e]
    (.ok e, { events := events, nextId := st.nextId + 1, persisted := some events })

/-- `updateEvent` (src/unnamed/part_001, lines 97-123): locate by id (returns
`null` when absent), validate, merge the new fields into the existing record
(spread preserves `id`, `createdBy`, `createdAt`), stamp `updatedAt`,
persist. -/
def updateEvent (st : EventStore) (id : Int) (d : EventInput) (now : String) :
    Except String (Option Event) × EventStore :=
  match st.events.findIdx? (fun e => e.id == id) with
  | none => (.ok none, st)
  | some i =>
      if missingRequired d then
        (.error "All fields are required", st)
      else
        let old := st.events.getD i default
        let e : Event :=
          { old with
            title := jsTrim (d.title.getD "")
            description := jsTrim (d.description.getD "")
            date := d.date.getD ""
            time := d.time.getD ""
            location := jsTrim (d.location.getD "")
            updatedAt := some now }
        let events := st.events.set i e
        (.ok (some e), { st with events := events, persisted := some events })

/-- `deleteEvent` (src/unnamed/part_001, lines 130-140): locate by id (returns
`null` when absent), splice it out, persist. The `nextId` counter is not
touched. -/
def deleteEvent (st : EventStore) (id : Int) :
    Option Event × EventStore :=
  match st.events.findIdx? (fun e => e.id == id) with
  | none => (none, st)
  | some i =>
      let deleted := st.events.getD i default
      let events := st.events.eraseIdx i
      (some deleted, { st with events := events, persisted := some events })

/-- An Account record as stored in the `users` collection (AuthModel.js).
Seeded accounts carry no `isActive`, `lastLogin` or `updatedAt` keys and
registered accounts carry `lastLogin: null`; both are `none` here. -/
structure User where
  id : Int
  username : String
  password : String
  role : String
  email : String
  fullName : String
  phone : String
  createdAt : String
  isActive : Option Bool := none
  lastLogin : Option String := none
  updatedAt : Option String := none
deriving Repr, DecidableEq, Inhabited

/-- The session object built by `authenticate` (AuthModel.js, lines 126-135).
Its fields are exactly the keys of that object literal — `id`, `username`,
`role`, `email`, `fullName`, `phone`, `loginTime`, `lastLogin` — and in
particular there is no `password` field. -/
structure Session where
  id : Int
  username : String
  role : String
  email : String
  fullName : String
  phone : String
  loginTime : String
  lastLogin : Option String
deriving Repr, DecidableEq

/-- The state of an `AuthModel` instance: the users collection, the current
session pointer, the next-id counter, and the `users` localStorage key. -/
structure AuthState where
  users : List User
  currentUser : Option Session
  nextUserId : Int
  persistedUsers : Option (List User)
deriving Repr, DecidableEq

/-- The two default accounts seeded by `loadUsers` (AuthModel.js, lines
25-46). -/
def defaultUsers (now : String) : List User :=
  [ { id := 1, username := "admin", password := "password", role := "admin",
      email := "admin@eventmanager.com", fullName := "System Administrator",
      phone := "+1-555-0100", createdAt := now },
    { id := 2, username := "user", password := "123456", role := "user",
      email := "user@eventmanager.com", fullName := "Demo User",
      phone := "+1-555-0101", createdAt := now } ]

/-- `loadUsers` (AuthModel.js, lines 18-54): if the `users` localStorage key
holds a collection (every persisted collection is a JSON array string, hence
truthy — `[]` serialises to `"[]"`), parse and return it; only when the key
is absent, seed the two default accounts and persist them. Returns the
collection together with the new content of the `users` key. -/
def loadUsers (saved : Option (List User)) (now : String) :
    List User × Option (List User) :=
  match saved with
  | some users => (users, some users)
  | none => (defaultUsers now, some (defaultUsers now))

/-- `getNextUserId` (AuthModel.js, line 74):
`users.length > 0 ? Math.max(...users.map(u => u.id)) + 1 : 1`. -/
def getNextUserId (users : List User) : Int :=
  match users.map (·.id) with
  | [] => 1
  | i :: is => is.foldl max i + 1

/-- The `AuthModel` constructor: load the users (seeding on first use), load
the persisted current user, seed the next-id counter. -/
def AuthState.init (savedUsers : Option (List User)) (savedCurrent : Option Session)
    (now : String) : AuthState :=
  let lu := loadUsers savedUsers now
  { users := lu.1, currentUser := savedCurrent, nextUserId := getNextUserId lu.1,
    persistedUsers := lu.2 }

/-- The credential predicate of `authenticate` (AuthModel.js, lines 117-121):
case-insensitive username match against the trimmed input, exact password
match, and `isActive !== false` (an absent `isActive` counts as active). -/
def matchesCredentials (username password : String) (u : User) : Bool :=
  jsToLower u.username == jsToLower (jsTrim username) && u.password == password &&
    u.isActive != some false

/-- The session object literal of `authenticate` (AuthModel.js, lines
126-135), built from the matched (and `lastLogin`-stamped) account: its
public fields plus `loginTime`. The account's `password` is not read. -/
def sessionFor (u : User) (now : String) : Session :=
  { id := u.id, username := u.username, role := u.role, email := u.email,
    fullName := u.fullName, phone := u.phone, loginTime := now,
    lastLogin := u.lastLogin }

/-- `authenticate` (AuthModel.js, lines 110-145): throw when either input is
falsy; find a matching active account; on a match stamp its `lastLogin`,
persist the collection, build the password-free session object and store it
as the current user; on no match return `null` with the state untouched. -/
def authenticate (st : AuthState) (username password : String) (now : String) :
    Except String (Option Session) × AuthState :=
  if username = "" || password = "" then
    (.error "Username and password are required", st)
  else
    match st.users.findIdx? (matchesCredentials username password) with
    | none => (.ok none, st)
    | some i =>
        let u := st.users.getD i default
        let u1 := { u with lastLogin := some now }
        let users := st.users.set i u1
        let sess : Session := sessionFor u1 now
        (.ok (some sess),
          { st with users := users, persistedUsers := some users,
                    currentUser := some sess })

/-- A character allowed by the email regex classes `[^\s@]` (AuthModel.js,
line 458; ASCII whitespace). -/
def isEmailChar (c : Char) : Bool :=
  !c.isWhitespace && c != '@'

/-- `validateEmailFormat` (AuthModel.js, lines 457-460): the regex
`^[^\s@]+@[^\s@]+\.[^\s@]+$` — exactly one `@`, a non-empty class-restricted
local part, and a class-restricted rest containing a `.` that is neither its
first nor its last character. -/
def validateEmailFormat (email : String) : Bool :=
  let cs := email.toList
  cs.count '@' == 1 &&
    (let a := cs.takeWhile (fun c => c != '@')
     let r := (cs.dropWhile (fun c => c != '@')).drop 1
     !a.isEmpty && a.all isEmailChar && r.all isEmailChar &&
       ((r.drop 1).dropLast.contains '.'))

/-- The digits part `[1-9][\d]{0,15}` of the phone regex (AuthModel.js,
line 468). -/
def phoneDigits : List Char → Bool
  | [] => false
  | c :: rest => c.isDigit && c != '0' && rest.all Char.isDigit && rest.length ≤ 15

/-- `validatePhoneFormat` (AuthModel.js, lines 467-470): strip spaces,
hyphens and parentheses, then match `^[\+]?[1-9][\d]{0,15}$`. -/
def validatePhoneFormat (phone : String) : Bool :=
  let cs := phone.toList.filter
    (fun c => !(c.isWhitespace || c == '-' || c == '(' || c == ')'))
  match cs with
  | '+' :: rest => phoneDigits rest
  | l => phoneDigits l

/-- A user profile: the rest pattern of
`const { password, ...userProfile } = user` — every Account field except
`password`. -/
structure UserProfile where
  id : Int
  username : String
  role : String
  email : String
  fullName : String
  phone : String
  createdAt : String
  isActive : Option Bool
  lastLogin : Option String
  updatedAt : Option String
deriving Repr, DecidableEq

/-- Strip the password from an Account record. -/
def User.profile (u : User) : UserProfile :=
  { id := u.id, username := u.username, role := u.role, email := u.email,
    fullName := u.fullName, phone := u.phone, createdAt := u.createdAt,
    isActive := u.isActive, lastLogin := u.lastLogin, updatedAt := u.updatedAt }

/-- A JS value passed as the `userId` argument: a number or a string. -/
inductive JsVal where
  | num (n : Int)
  | str (s : String)
deriving Repr, DecidableEq

/-- `parseInt(userId)`, modelled on canonical decimal strings
(`jsParseInt`): a number parses to itself, a non-numeric string to `NaN`
(`none`), which matches no id. -/
def parseIntVal : JsVal → Option Int
  | .num n => some n
  | .str s => jsParseInt s

/-- The predicate `u.id === parseInt(userId)` used by the `findIndex` of
`updateUserProfile` (AuthModel.js, line 168). -/
def idMatchesParsed (uid : Int) (v : JsVal) : Bool :=
  match parseIntVal v with
  | some n => uid == n
  | none => false

/-- JS strict equality `n === v` between a number `n` and the raw `userId`
value: false whenever `v` is a string, whatever its content. -/
def jsStrictEqNum (n : Int) (v : JsVal) : Bool :=
  match v with
  | .num m => n == m
  | .str _ => false

/-- The `updateData` argument of `updateUserProfile`: each mutable field may
be absent (`undefined`). -/
structure ProfilePatch where
  fullName : Option String := none
  email : Option String := none
  phone : Option String := none
deriving Repr, DecidableEq

/-- The `allowedFields.forEach` loop of `updateUserProfile` (AuthModel.js,
lines 191-196): copy each patch field that is not `undefined` onto the
account, trimmed; then stamp `updatedAt`. -/
def applyPatch (u : User) (d : ProfilePatch) (now : String) : User :=
  let u1 := match d.fullName with
    | some v => { u with fullName := jsTrim v }
    | none => u
  let u2 := match d.email with
    | some v => { u1 with email := jsTrim v }
    | none => u1
  let u3 := match d.phone with
    | some v => { u2 with phone := jsTrim v }
    | none => u2
  { u3 with updatedAt := some now }

/-- The session refresh `{...this.currentUser, ...userProfile}` of
`updateUserProfile` (AuthModel.js, lines 203-208): the profile keys
overwrite the session's `id`, `username`, `role`, `email`, `fullName`,
`phone` and `lastLogin`; `loginTime` has no profile key and survives. (The
profile's `createdAt`, `isActive` and `updatedAt` keys are also spliced into
the JS session object; they are outside the Session projection modelled
here.) -/
def Session.mergeProfile (s : Session) (u : User) : Session :=
  { id := u.id, username := u.username, role := u.role, email := u.email,
    fullName := u.fullName, phone := u.phone, loginTime := s.loginTime,
    lastLogin := u.lastLogin }

/-- `updateUserProfile` (AuthModel.js, lines 167-214): locate the account by
`parseInt(userId)` (throw `'User not found'` otherwise); when the patch
carries a truthy email different from the current one, check uniqueness
(case-insensitive, excluding accounts with `u.id !== userId` — strict
equality against the RAW `userId`) and shape; check phone shape when the
patch carries a truthy phone; copy the defined patch fields (trimmed), stamp
`updatedAt`, persist; refresh the current session only when
`currentUser.id === userId` strictly (again the raw value); return the
password-free profile. -/
def updateUserProfile (st : AuthState) (userId : JsVal) (d : ProfilePatch)
    (now : String) : Except String UserProfile × AuthState :=
  match st.users.findIdx? (fun u => idMatchesParsed u.id userId) with
  | none => (.error "User not found", st)
  | some i =>
      let user := st.users.getD i default
      let emailChanged := jsTruthy d.email && (d.email.getD "") != user.email
      if emailChanged && st.users.any
          (fun u2 => jsToLower u2.email == jsToLower (d.email.getD "") &&
            !jsStrictEqNum u2.id userId) then
        (.error "Email address already in use", st)
      else if emailChanged && !validateEmailFormat (d.email.getD "") then
        (.error "Please enter a valid email address", st)
      else if jsTruthy d.phone && !validatePhoneFormat (d.phone.getD "") then
        (.error "Please enter a valid phone number", st)
      else
        let u4 := applyPatch user d now
        let users := st.users.set i u4
        let cur := match st.currentUser with
          | some s => if jsStrictEqNum s.id userId
              then some (s.mergeProfile u4) else some s
          | none => none
        (.ok u4.profile,
          { st with users := users, persistedUsers := some users,
                    currentUser := cur })

/-- `changePassword` (AuthModel.js, lines 320-347): throw when logged out;
locate the session's account by exact username (return `false` when absent);
throw `'Current password is incorrect'` on a mismatch; then throw on a falsy
or short new password; otherwise overwrite the in-memory password and return
`true`. `saveUsers` is NOT called: the `users` localStorage key is left as
it was. -/
def changePassword (st : AuthState) (currentPassword newPassword : String) :
    Except String Bool × AuthState :=
  match st.currentUser with
  | none => (.error "User not authenticated", st)
  | some s =>
      match st.users.findIdx? (fun u => u.username == s.username) with
      | none => (.ok false, st)
      | some i =>
          let u := st.users.getD i default
          if u.password != currentPassword then
            (.error "Current password is incorrect", st)
          else if newPassword = "" || newPassword.length < 6 then
            (.error "New password must be at least 6 characters long", st)
          else
            (.ok true,
              { st with users := st.users.set i { u with password := newPassword } })

/-- The `userData` argument of `registerUser`: every field may be absent. -/
structure RegisterData where
  username : Option String := none
  password : Option String := none
  email : Option String := none
  fullName : Option String := none
  phone : Option String := none
deriving Repr, DecidableEq

/-- The username regex `^[a-zA-Z0-9_]+$` (AuthModel.js, line 398). -/
def validUsernameFormat (s : String) : Bool :=
  s.length > 0 && s.toList.all (fun c => c.isAlpha || c.isDigit || c == '_')

/-- The eight validation throws of `registerUser` (AuthModel.js, lines
392-427), in source order, as the first error raised: required fields
(truthiness); username length ≥ 3; username charset; username uniqueness
(case-insensitive); email uniqueness (case-insensitive); email shape;
password length ≥ 6; phone shape when truthy. `none` means every check
passed. -/
def registerError (st : AuthState) (d : RegisterData) : Option String :=
  if !jsTruthy d.username || !jsTruthy d.password || !jsTruthy d.email ||
      !jsTruthy d.fullName then
    some "Username, password, email, and full name are required"
  else if (d.username.getD "").length < 3 then
    some "Username must be at least 3 characters long"
  else if !validUsernameFormat (d.username.getD "") then
    some "Username can only contain letters, numbers, and underscores"
  else if st.users.any
      (fun u => jsToLower u.username == jsToLower (d.username.getD "")) then
    some "Username already exists"
  else if st.users.any
      (fun u => jsToLower u.email == jsToLower (d.email.getD "")) then
    some "Email address already registered"
  else if !validateEmailFormat (d.email.getD "") then
    some "Please enter a valid email address"
  else if (d.password.getD "").length < 6 then
    some "Password must be at least 6 characters long"
  else if jsTruthy d.phone && !validatePhoneFormat (d.phone.getD "") then
    some "Please enter a valid phone number"
  else none

/-- `registerUser` (AuthModel.js, lines 390-451): throw the first failing
check of `registerError`, if any; otherwise build the account (trimmed
username/fullName, lower-cased trimmed email, role `'user'`,
`isActive: true`), bump the counter, push, persist, and return the
password-free profile. -/
def registerUser (st : AuthState) (d : RegisterData) (now : String) :
    Except String UserProfile × AuthState :=
  match registerError st d with
  | some msg => (.error msg, st)
  | none =>
    let newUser : User :=
      { id := st.nextUserId
        username := jsTrim (d.username.getD "")
        password := d.password.getD ""
        role := "user"
        email := jsToLower (jsTrim (d.email.getD ""))
        fullName := jsTrim (d.fullName.getD "")
        phone := if jsTruthy d.phone then jsTrim (d.phone.getD "") else ""
        createdAt := now
        isActive := some true
        lastLogin := none
        updatedAt := none }
    let users := st.users ++ [newUser]
    (.ok newUser.profile,
      { st with users := users, nextUserId := st.nextUserId + 1,
                persistedUsers := some users })

/-! ## Helper lemmas -/

theorem missingRequired_iff (d : EventInput) :
    missingRequired d = true ↔
      (d.title.getD "" = "" ∨ d.description.getD "" = "" ∨ d.date.getD "" = "" ∨
        d.time.getD "" = "" ∨ d.location.getD "" = "") := by
  rcases d with ⟨t, de, da, ti, lo, cb⟩
  cases t <;> cases de <;> cases da <;> cases ti <;> cases lo <;>
    (simp [missingRequired, jsTruthy]; try tauto)

theorem addEvent_error_iff (st : EventStore) (d : EventInput) (now : String) :
    (addEvent st d now).1 = Except.error "All fields are required" ↔
      missingRequired d = true := by
  by_cases h : missingRequired d <;> simp [addEvent, h]

theorem addEvent_error_state (st : EventStore) (d : EventInput) (now : String)
    (msg : String) (h : (addEvent st d now).1 = Except.error msg) :
    (addEvent st d now).2 = st := by
  by_cases hm : missingRequired d <;> simp [addEvent, hm] at h ⊢

/-- C1: the claim as frozen is false on the code. The validation of
`addEvent` is a plain JS truthiness test run BEFORE any trimming, so a
whitespace-only title (`"   "`) passes it: `create` succeeds, and the stored
event's title is the empty string after trimming — the operation neither
fails nor preserves the non-empty-after-trimming invariant. -/
theorem C1_counterexample :
    (addEvent (EventStore.ofPersisted none)
        { title := some "   ", description := some "Desc",
          date := some "2025-01-01", time := some "10:00",
          location := some "Hall", createdBy := some "alice" } "t0").1 =
      Except.ok
        { id := 1, title := "", description := "Desc", date := "2025-01-01",
          time := "10:00", location := "Hall", createdBy := "alice",
          createdAt := "t0", updatedAt := none } ∧
    ((addEvent (EventStore.ofPersisted none)
        { title := some "   ", description := some "Desc",
          date := some "2025-01-01", time := some "10:00",
          location := some "Hall", createdBy := some "alice" } "t0").2.events.map
      (fun e => e.title)) = [""] := by
  constructor <;> rfl

/-- C1 (amended): `create` (and `update` of an existing event) fails with the
validation error if and only if one of the five required fields is missing
or is the empty string BEFORE trimming; a failed call leaves the store
unchanged. Whitespace-only values pass validation, so the
non-empty-after-trimming invariant of the original claim does not hold (see
the counterexample). -/
theorem C1_amended (st : EventStore) (d : EventInput) (now : String) :
    ((addEvent st d now).1 = Except.error "All fields are required" ↔
      (d.title.getD "" = "" ∨ d.description.getD "" = "" ∨ d.date.getD "" = "" ∨
        d.time.getD "" = "" ∨ d.location.getD "" = "")) ∧
    (∀ id : Int, (st.events.findIdx? (fun e => e.id == id)).isSome →
      ((updateEvent st id d now).1 = Except.error "All fields are required" ↔
        (d.title.getD "" = "" ∨ d.description.getD "" = "" ∨ d.date.getD "" = "" ∨
          d.time.getD "" = "" ∨ d.location.getD "" = ""))) ∧
    (∀ msg : String, (addEvent st d now).1 = Except.error msg →
      (addEvent st d now).2 = st) ∧
    (∀ (id : Int) (msg : String),
      (updateEvent st id d now).1 = Except.error msg →
      (updateEvent st id d now).2 = st) := by
  refine ⟨?_, ?_, ?_, ?_⟩
  · rw [addEvent_error_iff]; exact missingRequired_iff d
  · intro id hid
    obtain ⟨i, hi⟩ := Option.isSome_iff_exists.mp hid
    rw [← missingRequired_iff d]
    by_cases hm : missingRequired d <;> simp [updateEvent, hi, hm]
  · exact addEvent_error_state st d now
  · intro id msg h
    cases hfind : st.events.findIdx? (fun e => e.id == id) with
    | none => simp [updateEvent, hfind]
    | some i =>
        by_cases hm : missingRequired d <;> simp [updateEvent, hfind, hm] at h ⊢

/-- C1 (amended, witness): a concrete create with a missing title fails, and
a concrete create with a whitespace-only title does not satisfy the error
condition. -/
theorem C1_amended_witness :
    (addEvent (EventStore.ofPersisted none)
      { description := some "Desc", date := some "2025-01-01",
        time := some "10:00", location := some "Hall" } "t0").1 =
      Except.error "All fields are required" :=
  (C1_amended (EventStore.ofPersisted none)
    { description := some "Desc", date := some "2025-01-01",
      time := some "10:00", location := some "Hall" } "t0").1.mpr (Or.inl rfl)

/-- C10: when the five required fields are all truthy and `createdBy` is
absent or empty, `addEvent` succeeds (a missing creator is never a
validation failure) and the stored and returned event has
`createdBy = "Unknown"`. -/
theorem C10_createdBy_defaults_to_Unknown (st : EventStore) (d : EventInput)
    (now : String) (hreq : missingRequired d = false)
    (hcb : d.createdBy = none ∨ d.createdBy = some "") :
    ∃ e : Event, (addEvent st d now).1 = Except.ok e ∧
      e.createdBy = "Unknown" ∧
      (addEvent st d now).2.events = st.events ++ [e] := by
  have hcb' : jsOrStr d.createdBy "Unknown" = "Unknown" := by
    rcases hcb with h | h <;> simp [jsOrStr, h]
  refine ⟨{ id := st.nextId, title := jsTrim (d.title.getD ""),
            description := jsTrim (d.description.getD ""), date := d.date.getD "",
            time := d.time.getD "", location := jsTrim (d.location.getD ""),
            createdBy := jsOrStr d.createdBy "Unknown", createdAt := now,
            updatedAt := none }, ?_, hcb', ?_⟩ <;>
    simp [addEvent, hreq]

/-- C10 (witness): a concrete event input with no `createdBy` is created
with creator `"Unknown"`. -/
theorem C10_witness :
    ∃ e : Event,
      (addEvent (EventStore.ofPersisted none)
        { title := some "T", description := some "D", date := some "2025-01-01",
          time := some "10:00", location := some "L" } "t0").1 = Except.ok e ∧
      e.createdBy = "Unknown" ∧
      (addEvent (EventStore.ofPersisted none)
        { title := some "T", description := some "D", date := some "2025-01-01",
          time := some "10:00", location := some "L" } "t0").2.events = [] ++ [e] :=
  C10_createdBy_defaults_to_Unknown (EventStore.ofPersisted none)
    { title := some "T", description := some "D", date := some "2025-01-01",
      time := some "10:00", location := some "L" } "t0" (by decide) (Or.inl rfl)

/-- C6: an `update` accepted by validation keeps the target's `id`,
`createdBy` and `createdAt`, stamps `updatedAt` with the update time, and
replaces only position `i` of the collection — every other position is
untouched. -/
theorem C6_update_preserves_identity (st : EventStore) (id : Int)
    (d : EventInput) (now : String) (i : Nat)
    (hfind : st.events.findIdx? (fun e => e.id == id) = some i)
    (hreq : missingRequired d = false) :
    ∃ e : Event,
      (updateEvent st id d now).1 = Except.ok (some e) ∧
      (updateEvent st id d now).2.events = st.events.set i e ∧
      e.id = (st.events.getD i default).id ∧
      e.createdBy = (st.events.getD i default).createdBy ∧
      e.createdAt = (st.events.getD i default).createdAt ∧
      e.updatedAt = some now ∧
      (∀ j : Nat, j ≠ i →
        (updateEvent st id d now).2.events[j]? = st.events[j]?) := by
  refine ⟨{ st.events.getD i default with
            title := jsTrim (d.title.getD ""),
            description := jsTrim (d.description.getD ""),
            date := d.date.getD "", time := d.time.getD "",
            location := jsTrim (d.location.getD ""),
            updatedAt := some now }, ?_, ?_, rfl, rfl, rfl, rfl, ?_⟩
  · simp [updateEvent, hfind, hreq]
  · simp [updateEvent, hfind, hreq]
  · intro j hj
    simp only [updateEvent, hfind, hreq, Bool.false_eq_true, if_false]
    exact List.getElem?_set_ne (fun h => hj h.symm)

/-- C6 (witness): updating the single stored event of a concrete store keeps
its identity fields and stamps `updatedAt`. -/
theorem C6_witness :
    ∃ e : Event,
      (updateEvent
        { events := [{ id := 1, title := "T", description := "D",
                       date := "2025-01-01", time := "10:00", location := "L",
                       createdBy := "alice", createdAt := "t0",
                       updatedAt := none }],
          nextId := 2, persisted := none } 1
        { title := some "T2", description := some "D2", date := some "2025-02-02",
          time := some "11:00", location := some "L2" } "t1").1 =
        Except.ok (some e) ∧
      (updateEvent
        { events := [{ id := 1, title := "T", description := "D",
                       date := "2025-01-01", time := "10:00", location := "L",
                       createdBy := "alice", createdAt := "t0",
                       updatedAt := none }],
          nextId := 2, persisted := none } 1
        { title := some "T2", description := some "D2", date := some "2025-02-02",
          time := some "11:00", location := some "L2" } "t1").2.events =
        List.set [{ id := 1, title := "T", description := "D",
                    date := "2025-01-01", time := "10:00", location := "L",
                    createdBy := "alice", createdAt := "t0",
                    updatedAt := none }] 0 e ∧
      e.id = 1 ∧ e.createdBy = "alice" ∧ e.createdAt = "t0" ∧
      e.updatedAt = some "t1" := by
  obtain ⟨e, h1, h2, h3, h4, h5, h6, -⟩ :=
    C6_update_preserves_identity
      { events := [{ id := 1, title := "T", description := "D",
                     date := "2025-01-01", time := "10:00", location := "L",
                     createdBy := "alice", createdAt := "t0",
                     updatedAt := none }],
        nextId := 2, persisted := none } 1
      { title := some "T2", description := some "D2", date := some "2025-02-02",
        time := some "11:00", location := some "L2" } "t1" 0 (by decide) (by decide)
  exact ⟨e, h1, h2, h3, h4, h5, h6⟩

/-- Every element of `is` is bounded by `is.foldl max i`, and so is the
initial accumulator `i`. -/
theorem le_foldl_max : ∀ (is : List Int) (i x : Int),
    x = i ∨ x ∈ is → x ≤ is.foldl max i := by
  intro is
  induction is with
  | nil =>
      intro i x h
      rcases h with h | h
      · exact h.le
      · cases h
  | cons b bs ih =>
      intro i x h
      rcases h with h | h
      · exact h.le.trans ((le_max_left i b).trans
          (ih (max i b) (max i b) (Or.inl rfl)))
      · rcases List.mem_cons.mp h with h | h
        · exact h.le.trans ((le_max_right i b).trans
            (ih (max i b) (max i b) (Or.inl rfl)))
        · exact ih (max i b) x (Or.inr h)

/-- Every stored id is strictly below the counter seeded by `getNextId`. -/
theorem id_lt_getNextId (events : List Event) :
    ∀ e ∈ events, e.id < getNextId events := by
  intro e he
  have hmem : e.id ∈ events.map (·.id) := List.mem_map_of_mem (·.id) he
  unfold getNextId
  cases hl : events.map (·.id) with
  | nil => rw [hl] at hmem; cases hmem
  | cons i is =>
      rw [hl] at hmem
      rcases List.mem_cons.mp hmem with h | h
      · exact lt_of_le_of_lt (le_foldl_max is i e.id (Or.inl h)) (lt_add_one _)
      · exact lt_of_le_of_lt (le_foldl_max is i e.id (Or.inr h)) (lt_add_one _)

/-- The id-uniqueness invariant of an event store: the stored ids are
pairwise distinct, and the counter strictly exceeds every stored id. -/
def idsOk (st : EventStore) : Prop :=
  (st.events.map (·.id)).Nodup ∧ ∀ e ∈ st.events, e.id < st.nextId

/-- Setting index `i` to an element with the same id leaves the id list
unchanged. -/
theorem map_id_set_eq : ∀ (l : List Event) (i : Nat) (e : Event),
    e.id = (l.getD i default).id →
    (l.set i e).map (·.id) = l.map (·.id) := by
  intro l
  induction l with
  | nil => intro i e _; simp
  | cons a as ih =>
      intro i e h
      cases i with
      | zero => simpa using congrArg (· :: as.map (·.id)) (by simpa using h)
      | succ n =>
          simp only [List.set_cons_succ, List.map_cons, List.cons.injEq, true_and]
          exact ih n e (by simpa using h)

theorem idsOk_addEvent (st : EventStore) (d : EventInput) (now : String)
    (h : idsOk st) : idsOk (addEvent st d now).2 := by
  by_cases hm : missingRequired d
  · simpa [addEvent, hm] using h
  · obtain ⟨hnd, hlt⟩ := h
    constructor
    · simp only [addEvent, hm, Bool.false_eq_true, if_false, List.map_append,
        List.map_cons, List.map_nil]
      rw [List.nodup_append]
      refine ⟨hnd, List.nodup_singleton _, ?_⟩
      intro x hx hx1
      simp only [List.mem_singleton] at hx1
      obtain ⟨e', he', rfl⟩ := List.mem_map.mp hx
      exact absurd (hx1 ▸ hlt e' he') (lt_irrefl _)
    · intro e he
      simp only [addEvent, hm, Bool.false_eq_true, if_false] at he ⊢
      rcases List.mem_append.mp he with h1 | h1
      · exact lt_trans (hlt e h1) (lt_add_one _)
      · simp only [List.mem_singleton] at h1
        rw [h1]
        exact lt_add_one _

theorem idsOk_updateEvent (st : EventStore) (id : Int) (d : EventInput)
    (now : String) (h : idsOk st) : idsOk (updateEvent st id d now).2 := by
  cases hf : st.events.findIdx? (fun e => e.id == id) with
  | none => simpa [updateEvent, hf] using h
  | some i =>
      by_cases hm : missingRequired d
      · simpa [updateEvent, hf, hm] using h
      · obtain ⟨hnd, hlt⟩ := h
        have hi : i < st.events.length :=
          (List.findIdx?_eq_some_iff_findIdx_eq.mp hf).1
        constructor
        · simp only [updateEvent, hf, hm, Bool.false_eq_true, if_false]
          rw [map_id_set_eq st.events i
            { st.events.getD i default with
              title := jsTrim (d.title.getD ""),
              description := jsTrim (d.description.getD ""),
              date := d.date.getD "", time := d.time.getD "",
              location := jsTrim (d.location.getD ""),
              updatedAt := some now } rfl]
          exact hnd
        · intro e he
          simp only [updateEvent, hf, hm, Bool.false_eq_true, if_false] at he ⊢
          rcases List.mem_or_eq_of_mem_set he with h1 | h1
          · exact hlt e h1
          · have hmem : st.events.getD i default ∈ st.events := by
              rw [List.getD_eq_getElem _ _ hi]
              exact List.getElem_mem hi
            have h2 := hlt (st.events.getD i default) hmem
            rw [h1]
            exact h2

theorem idsOk_deleteEvent (st : EventStore) (id : Int)
    (h : idsOk st) : idsOk (deleteEvent st id).2 := by
  cases hf : st.events.findIdx? (fun e => e.id == id) with
  | none => simpa [deleteEvent, hf] using h
  | some i =>
      obtain ⟨hnd, hlt⟩ := h
      constructor
      · simp only [deleteEvent, hf]
        exact hnd.sublist ((st.events.eraseIdx_sublist i).map (·.id))
      · intro e he
        simp only [deleteEvent, hf] at he ⊢
        exact hlt e ((st.events.eraseIdx_sublist i).subset he)

/-- C5: the claim as frozen is false on the code. Deleting the highest-id
event and reconstructing the store from the persisted collection reseeds the
counter at `max(remaining ids) + 1`, which hands the deleted id to the next
created event: below, the event titled `"B"` is deleted with id 2, and after
reconstruction the freshly created event titled `"C"` receives id 2 as well,
so id 2 identifies two distinct events over time. -/
theorem C5_counterexample :
    ((deleteEvent
        (addEvent
          (addEvent (EventStore.ofPersisted none)
            { title := some "A", description := some "D", date := some "2025-01-01",
              time := some "10:00", location := some "L", createdBy := some "alice" }
            "t1").2
          { title := some "B", description := some "D", date := some "2025-01-01",
            time := some "10:00", location := some "L", createdBy := some "alice" }
          "t2").2 2).1.map (fun e => (e.id, e.title))) = some (2, "B") ∧
    ((addEvent
        (EventStore.ofPersisted
          (deleteEvent
            (addEvent
              (addEvent (EventStore.ofPersisted none)
                { title := some "A", description := some "D",
                  date := some "2025-01-01", time := some "10:00",
                  location := some "L", createdBy := some "alice" } "t1").2
              { title := some "B", description := some "D",
                date := some "2025-01-01", time := some "10:00",
                location := some "L", createdBy := some "alice" } "t2").2
            2).2.persisted)
        { title := some "C", description := some "D", date := some "2025-01-01",
          time := some "10:00", location := some "L", createdBy := some "alice" }
        "t3").1.map (fun e => (e.id, e.title))) = Except.ok (2, "C") := by
  constructor <;> rfl

/-- C5 (amended): ids are unique within the collection at all times, and
within a single store lifetime a created event's id never collides with any
stored id — the invariant `idsOk` (pairwise-distinct stored ids, counter
strictly above every stored id) holds of a freshly constructed store and is
preserved by `addEvent`, `updateEvent` and `deleteEvent`, and a successful
`addEvent` returns an event whose id differs from every previously stored
id. However, reconstruction from the persisted collection only reseeds the
counter to `max(existing ids) + 1`, so an id freed by deleting the
highest-id event CAN be reassigned across store lifetimes (see the
counterexample). -/
theorem C5_amended :
    (∀ (st : EventStore) (d : EventInput) (now : String),
      idsOk st → idsOk (addEvent st d now).2) ∧
    (∀ (st : EventStore) (id : Int) (d : EventInput) (now : String),
      idsOk st → idsOk (updateEvent st id d now).2) ∧
    (∀ (st : EventStore) (id : Int), idsOk st → idsOk (deleteEvent st id).2) ∧
    (∀ evs : List Event, (evs.map (·.id)).Nodup →
      idsOk (EventStore.ofPersisted (some evs))) ∧
    idsOk (EventStore.ofPersisted none) ∧
    (∀ (st : EventStore) (d : EventInput) (now : String) (e : Event),
      idsOk st → (addEvent st d now).1 = Except.ok e →
      ∀ old ∈ st.events, old.id ≠ e.id) := by
  refine ⟨idsOk_addEvent, idsOk_updateEvent, idsOk_deleteEvent, ?_, ?_, ?_⟩
  · intro evs hnd
    exact ⟨hnd, id_lt_getNextId evs⟩
  · exact ⟨List.nodup_nil, by intro e he; cases he⟩
  · intro st d now e h hok old hold heq
    by_cases hm : missingRequired d
    · simp [addEvent, hm] at hok
    · simp only [addEvent, hm, Bool.false_eq_true, if_false, Except.ok.injEq] at hok
      have := h.2 old hold
      rw [heq, ← hok] at this
      exact absurd this (lt_irrefl _)

/-- C5 (amended, witness): the invariant holds of a store reconstructed from
a concrete persisted collection with distinct ids. -/
theorem C5_amended_witness :
    idsOk (EventStore.ofPersisted (some
      [{ id := 1, title := "A", description := "D", date := "2025-01-01",
         time := "10:00", location := "L", createdBy := "alice",
         createdAt := "t1", updatedAt := none },
       { id := 3, title := "B", description := "D", date := "2025-01-01",
         time := "10:00", location := "L", createdBy := "alice",
         createdAt := "t2", updatedAt := none }])) :=
  C5_amended.2.2.2.1
    [{ id := 1, title := "A", description := "D", date := "2025-01-01",
       time := "10:00", location := "L", createdBy := "alice",
       createdAt := "t1", updatedAt := none },
     { id := 3, title := "B", description := "D", date := "2025-01-01",
       time := "10:00", location := "L", createdBy := "alice",
       createdAt := "t2", updatedAt := none }] (by decide)

/-- Failure cause 1: no account has the (trimmed, case-folded) username. -/
def usernameAbsent (users : List User) (username : String) : Prop :=
  ∀ u ∈ users, jsToLower u.username ≠ jsToLower (jsTrim username)

/-- Failure cause 2: some account has the username, but every such account
has a different password. -/
def passwordWrong (users : List User) (username password : String) : Prop :=
  (∃ u ∈ users, jsToLower u.username = jsToLower (jsTrim username)) ∧
    ∀ u ∈ users, jsToLower u.username = jsToLower (jsTrim username) →
      u.password ≠ password

/-- Failure cause 3: some account matches username and password, but every
such account is explicitly inactive. -/
def accountInactive (users : List User) (username password : String) : Prop :=
  (∃ u ∈ users, jsToLower u.username = jsToLower (jsTrim username) ∧
    u.password = password) ∧
    ∀ u ∈ users, jsToLower u.username = jsToLower (jsTrim username) →
      u.password = password → u.isActive = some false

/-- Any of the three failure causes of `authenticate`. -/
def authFailCause (users : List User) (username password : String) : Prop :=
  usernameAbsent users username ∨ passwordWrong users username password ∨
    accountInactive users username password

/-- Under any of the three failure causes no account passes the single
combined credential predicate, so the `find` of `authenticate` comes back
empty. -/
theorem noMatch_of_cause (users : List User) (un pw : String)
    (h : authFailCause users un pw) :
    users.findIdx? (matchesCredentials un pw) = none := by
  rw [List.findIdx?_eq_none_iff]
  intro u hu
  apply Bool.eq_false_iff.mpr
  intro htrue
  simp only [matchesCredentials, Bool.and_eq_true, beq_iff_eq, bne_iff_ne,
    ne_eq] at htrue
  obtain ⟨⟨ha, hb⟩, hc⟩ := htrue
  rcases h with h | ⟨-, h⟩ | ⟨-, h⟩
  · exact h u hu ha
  · exact h u hu ha hb
  · exact hc (h u hu ha hb)

/-- C2: whenever two `authenticate` calls with non-empty arguments fail —
for any of the three causes: username absent, password wrong, or account
inactive — they return the very same failure value (`null`), and neither
call changes its state, so the caller cannot tell the causes apart from the
result. -/
theorem C2_failures_indistinguishable (st₁ st₂ : AuthState)
    (un₁ pw₁ t₁ un₂ pw₂ t₂ : String)
    (h₁ : un₁ ≠ "" ∧ pw₁ ≠ "") (h₂ : un₂ ≠ "" ∧ pw₂ ≠ "")
    (c₁ : authFailCause st₁.users un₁ pw₁)
    (c₂ : authFailCause st₂.users un₂ pw₂) :
    (authenticate st₁ un₁ pw₁ t₁).1 = (authenticate st₂ un₂ pw₂ t₂).1 ∧
    authenticate st₁ un₁ pw₁ t₁ = (Except.ok none, st₁) ∧
    authenticate st₂ un₂ pw₂ t₂ = (Except.ok none, st₂) := by
  have e₁ : authenticate st₁ un₁ pw₁ t₁ = (Except.ok none, st₁) := by
    simp [authenticate, h₁.1, h₁.2, noMatch_of_cause _ _ _ c₁]
  have e₂ : authenticate st₂ un₂ pw₂ t₂ = (Except.ok none, st₂) := by
    simp [authenticate, h₂.1, h₂.2, noMatch_of_cause _ _ _ c₂]
  exact ⟨by rw [e₁, e₂], e₁, e₂⟩

/-- C2 (witness): a concrete absent-username failure and a concrete
inactive-account failure (against a store whose only matching account is
deactivated) produce identical results. -/
theorem C2_witness :
    (authenticate
      { users := defaultUsers "t0", currentUser := none, nextUserId := 3,
        persistedUsers := some (defaultUsers "t0") } "ghost" "password" "t1").1 =
    (authenticate
      { users := [{ id := 1, username := "admin", password := "password",
                    role := "admin", email := "admin@eventmanager.com",
                    fullName := "System Administrator", phone := "+1-555-0100",
                    createdAt := "t0", isActive := some false }],
        currentUser := none, nextUserId := 2,
        persistedUsers := none } "admin" "password" "t1").1 :=
  (C2_failures_indistinguishable
    { users := defaultUsers "t0", currentUser := none, nextUserId := 3,
      persistedUsers := some (defaultUsers "t0") }
    { users := [{ id := 1, username := "admin", password := "password",
                  role := "admin", email := "admin@eventmanager.com",
                  fullName := "System Administrator", phone := "+1-555-0100",
                  createdAt := "t0", isActive := some false }],
      currentUser := none, nextUserId := 2, persistedUsers := none }
    "ghost" "password" "t1" "admin" "password" "t1"
    (by decide) (by decide)
    (Or.inl (by unfold usernameAbsent; decide))
    (Or.inr (Or.inr (by unfold accountInactive; decide)))).1

/-- C3: a successful `authenticate` returns precisely the password-free
projection of the matched account — the record whose fields are the
account's `id`, `username`, `role`, `email`, `fullName`, `phone` and
(freshly stamped) `lastLogin`, plus `loginTime` — and the projection
`sessionFor` does not depend on the account's password at all (the
modelled `Session` type, mirroring the object literal of the source, has no
password field). -/
theorem C3_session_has_no_password (st : AuthState) (un pw now : String)
    (s : Session) (st2 : AuthState)
    (h : authenticate st un pw now = (Except.ok (some s), st2)) :
    (∃ i : Nat, st.users.findIdx? (matchesCredentials un pw) = some i ∧
      s = { id := (st.users.getD i default).id,
            username := (st.users.getD i default).username,
            role := (st.users.getD i default).role,
            email := (st.users.getD i default).email,
            fullName := (st.users.getD i default).fullName,
            phone := (st.users.getD i default).phone,
            loginTime := now, lastLogin := some now }) ∧
    (∀ (u : User) (p t : String),
      sessionFor { u with password := p } t = sessionFor u t) := by
  refine ⟨?_, fun u p t => rfl⟩
  by_cases hu : un = ""
  · simp [authenticate, hu] at h
  by_cases hp : pw = ""
  · simp [authenticate, hu, hp] at h
  cases hf : st.users.findIdx? (matchesCredentials un pw) with
  | none => simp [authenticate, hu, hp, hf] at h
  | some i =>
      refine ⟨i, rfl, ?_⟩
      simp only [authenticate, hu, hp, hf, decide_eq_true_eq,
        Bool.or_eq_true, decide_eq_false_iff_not, if_false] at h
      have h1 := congrArg Prod.fst h
      simp only [if_neg (by simp [hu, hp] : ¬(decide (un = "") || decide (pw = "")) = true)] at h1
      exact (Option.some_injective _ (Except.ok.inj h1)).symm


/-- A concrete account used to exercise a successful authentication. -/
def c3User : User :=
  { id := 7, username := "Admin", password := "pw1234", role := "admin",
    email := "a@x.com", fullName := "A", phone := "1", createdAt := "t0" }

/-- A concrete auth state holding only `c3User`. -/
def c3State : AuthState :=
  { users := [c3User], currentUser := none, nextUserId := 8,
    persistedUsers := some [c3User] }

/-- C3 (witness): a concrete successful authentication yields exactly the
password-free projection of the matched account. -/
theorem C3_witness :
    ∃ i : Nat,
      c3State.users.findIdx? (matchesCredentials "admin" "pw1234") = some i ∧
      ({ id := 7, username := "Admin", role := "admin", email := "a@x.com",
         fullName := "A", phone := "1", loginTime := "t1",
         lastLogin := some "t1" } : Session) =
      { id := (c3State.users.getD i default).id,
        username := (c3State.users.getD i default).username,
        role := (c3State.users.getD i default).role,
        email := (c3State.users.getD i default).email,
        fullName := (c3State.users.getD i default).fullName,
        phone := (c3State.users.getD i default).phone,
        loginTime := "t1", lastLogin := some "t1" } :=
  (C3_session_has_no_password c3State "admin" "pw1234" "t1"
    { id := 7, username := "Admin", role := "admin", email := "a@x.com",
      fullName := "A", phone := "1", loginTime := "t1", lastLogin := some "t1" }
    { users := [{ c3User with lastLogin := some "t1" }],
      currentUser := some { id := 7, username := "Admin", role := "admin",
                            email := "a@x.com", fullName := "A", phone := "1",
                            loginTime := "t1", lastLogin := some "t1" },
      nextUserId := 8,
      persistedUsers := some [{ c3User with lastLogin := some "t1" }] }
    rfl).1

/-- C7: constructing the account store seeds exactly the two default
accounts — one `admin` role, one `user` role, with the fixed well-known
credentials — and persists them, precisely when no `users` collection was
ever persisted; whenever any collection was persisted, including an
explicitly persisted empty one, construction adopts it verbatim and never
re-seeds. -/
theorem C7_seeds_exactly_once (now : String) (savedCurrent : Option Session) :
    ((AuthState.init none savedCurrent now).users = defaultUsers now ∧
      (AuthState.init none savedCurrent now).persistedUsers =
        some (defaultUsers now) ∧
      (∃ a b : User, defaultUsers now = [a, b] ∧
        a.role = "admin" ∧ a.username = "admin" ∧ a.password = "password" ∧
        b.role = "user" ∧ b.username = "user" ∧ b.password = "123456")) ∧
    (∀ l : List User,
      (AuthState.init (some l) savedCurrent now).users = l ∧
      (AuthState.init (some l) savedCurrent now).persistedUsers = some l) ∧
    (AuthState.init (some []) savedCurrent now).users = [] := by
  refine ⟨⟨rfl, rfl, ?_⟩, fun l => ⟨rfl, rfl⟩, rfl⟩
  exact ⟨_, _, rfl, rfl, rfl, rfl, rfl, rfl, rfl⟩

/-- C9: `changePassword` requires an active session (error when logged out);
when the session's account exists at index `i`, a wrong `current` always
fails with the authentication error (the state untouched); with the correct
`current`, a `next` shorter than 6 characters fails with the validation
error; and with the correct `current` and `next` of length at least 6 it
overwrites only that account's in-memory password and reports success, while
the persisted `users` key is left exactly as it was (no durable write). -/
theorem C9_changePassword_checks (st : AuthState) (cur next : String) :
    (st.currentUser = none →
      changePassword st cur next = (Except.error "User not authenticated", st)) ∧
    (∀ (s : Session) (i : Nat), st.currentUser = some s →
      st.users.findIdx? (fun u => u.username == s.username) = some i →
      (((st.users.getD i default).password ≠ cur →
          changePassword st cur next =
            (Except.error "Current password is incorrect", st)) ∧
        ((st.users.getD i default).password = cur → next.length < 6 →
          changePassword st cur next =
            (Except.error "New password must be at least 6 characters long", st)) ∧
        ((st.users.getD i default).password = cur → 6 ≤ next.length →
          changePassword st cur next =
            (Except.ok true,
              { st with
                users :=
                  st.users.set i
                    ({ st.users.getD i default with password := next }) }) ∧
          (changePassword st cur next).2.persistedUsers = st.persistedUsers))) := by
  constructor
  · intro h
    simp [changePassword, h]
  · intro s i hs hf
    refine ⟨?_, ?_, ?_⟩
    · intro hne
      rw [List.getD_eq_getElem?_getD] at hne
      simp [changePassword, hs, hf, bne_iff_ne, hne]
    · intro heq hshort
      rw [List.getD_eq_getElem?_getD] at heq
      simp [changePassword, hs, hf, heq, hshort]
    · intro heq hlong
      rw [List.getD_eq_getElem?_getD] at heq
      have hne : next ≠ "" := by
        intro h0
        rw [h0] at hlong
        simp at hlong
      have hnlt : ¬(next.length < 6) := Nat.not_lt.mpr hlong
      constructor
      · simp [changePassword, hs, hf, heq, hne, hnlt]
      · simp [changePassword, hs, hf, heq, hne, hnlt]

/-- C9 (witness): in a concrete logged-in state, changing the password with
the correct current password and a 6-character replacement succeeds and
leaves the persisted collection untouched. -/
theorem C9_witness :
    changePassword
      { users := [c3User], currentUser := some
          { id := 7, username := "Admin", role := "admin", email := "a@x.com",
            fullName := "A", phone := "1", loginTime := "t1",
            lastLogin := some "t1" },
        nextUserId := 8, persistedUsers := some [c3User] } "pw1234" "abcdef" =
      (Except.ok true,
        { users := [{ c3User with password := "abcdef" }],
          currentUser := some
            { id := 7, username := "Admin", role := "admin", email := "a@x.com",
              fullName := "A", phone := "1", loginTime := "t1",
              lastLogin := some "t1" },
          nextUserId := 8, persistedUsers := some [c3User] }) := by
  have h := ((C9_changePassword_checks
    { users := [c3User], currentUser := some
        { id := 7, username := "Admin", role := "admin", email := "a@x.com",
          fullName := "A", phone := "1", loginTime := "t1",
          lastLogin := some "t1" },
      nextUserId := 8, persistedUsers := some [c3User] } "pw1234" "abcdef").2
    { id := 7, username := "Admin", role := "admin", email := "a@x.com",
      fullName := "A", phone := "1", loginTime := "t1", lastLogin := some "t1" }
    0 rfl (by decide)).2.2 (by decide) (by decide)
  exact h.1

/-- A concrete stored account whose username has only two characters. -/
def c4User : User :=
  { id := 1, username := "ab", password := "password", role := "user",
    email := "ab@x.com", fullName := "AB", phone := "", createdAt := "t0" }

/-- A concrete auth state holding only `c4User`. -/
def c4State : AuthState :=
  { users := [c4User], currentUser := none, nextUserId := 2,
    persistedUsers := some [c4User] }

/-- C4: the claim as frozen is false on the code. `registerUser` runs the
username length check BEFORE the uniqueness checks, so against a collection
holding the two-character username `"ab"`, registering that same username
fails with the length error — not with an error identifying the collision —
even though the username already occurs (case-insensitively). The
collection is unchanged, as the claim also says. -/
theorem C4_counterexample :
    c4User ∈ c4State.users ∧
    jsToLower c4User.username = jsToLower "ab" ∧
    registerUser c4State
      { username := some "ab", password := some "secret1",
        email := some "new@x.com", fullName := some "N" } "t1" =
      (Except.error "Username must be at least 3 characters long", c4State) := by
  refine ⟨by decide, rfl, rfl⟩

/-- Every failing `registerUser` call leaves the state untouched: all eight
validation throws happen before the push. -/
theorem registerUser_error_state (st : AuthState) (d : RegisterData)
    (now : String) : ∀ msg : String,
    (registerUser st d now).1 = Except.error msg →
    (registerUser st d now).2 = st := by
  intro msg h
  cases he : registerError st d with
  | some m => simp [registerUser, he]
  | none => simp [registerUser, he] at h

/-- C4 (amended): for registration inputs that pass the earlier checks (all
four required fields truthy, username at least 3 characters and drawn from
letters, digits and underscore), a case-insensitive username collision
always fails with `'Username already exists'`; with no username collision, a
case-insensitive email collision always fails with
`'Email address already registered'`; the two errors are distinct; and EVERY
failing `registerUser` call — whatever check it tripped — leaves the user
collection unchanged. -/
theorem C4_amended (st : AuthState) (d : RegisterData) (now : String)
    (hreq : jsTruthy d.username = true ∧ jsTruthy d.password = true ∧
      jsTruthy d.email = true ∧ jsTruthy d.fullName = true)
    (hlen : 3 ≤ (d.username.getD "").length)
    (hfmt : validUsernameFormat (d.username.getD "") = true) :
    ((∃ u ∈ st.users, jsToLower u.username = jsToLower (d.username.getD "")) →
      registerUser st d now = (Except.error "Username already exists", st)) ∧
    ((∀ u ∈ st.users, jsToLower u.username ≠ jsToLower (d.username.getD "")) →
      (∃ u ∈ st.users, jsToLower u.email = jsToLower (d.email.getD "")) →
      registerUser st d now =
        (Except.error "Email address already registered", st)) ∧
    (∀ msg : String, (registerUser st d now).1 = Except.error msg →
      (registerUser st d now).2 = st) ∧
    ("Username already exists" : String) ≠ "Email address already registered" := by
  have hstate : ∀ msg : String, (registerUser st d now).1 = Except.error msg →
      (registerUser st d now).2 = st := registerUser_error_state st d now
  obtain ⟨hu1, hu2, hu3, hu4⟩ := hreq
  have hnlt : ¬((d.username.getD "").length < 3) := Nat.not_lt.mpr hlen
  refine ⟨?_, ?_, ?_, by decide⟩
  · intro hcol
    have hany : st.users.any
        (fun u => jsToLower u.username == jsToLower (d.username.getD "")) = true := by
      rw [List.any_eq_true]
      obtain ⟨u, hu, he⟩ := hcol
      exact ⟨u, hu, beq_iff_eq.mpr he⟩
    simp [registerUser, registerError, hu1, hu2, hu3, hu4, hnlt, hfmt, hany]
  · intro hnocol hcol
    have hnone : st.users.any
        (fun u => jsToLower u.username == jsToLower (d.username.getD "")) = false := by
      rw [List.any_eq_false]
      intro u hu
      exact fun hb => hnocol u hu (beq_iff_eq.mp hb)
    have hany : st.users.any
        (fun u => jsToLower u.email == jsToLower (d.email.getD "")) = true := by
      rw [List.any_eq_true]
      obtain ⟨u, hu, he⟩ := hcol
      exact ⟨u, hu, beq_iff_eq.mpr he⟩
    simp [registerUser, registerError, hu1, hu2, hu3, hu4, hnlt, hfmt, hnone,
      hany]
  · exact hstate

/-- C4 (amended, witness): registering the username `"ADMIN"` against the
seeded collection fails with the username-specific collision error. -/
theorem C4_amended_witness :
    registerUser
      { users := defaultUsers "t0", currentUser := none, nextUserId := 3,
        persistedUsers := some (defaultUsers "t0") }
      { username := some "ADMIN", password := some "secret1",
        email := some "new@x.com", fullName := some "N" } "t1" =
      (Except.error "Username already exists",
        { users := defaultUsers "t0", currentUser := none, nextUserId := 3,
          persistedUsers := some (defaultUsers "t0") }) :=
  (C4_amended
    { users := defaultUsers "t0", currentUser := none, nextUserId := 3,
      persistedUsers := some (defaultUsers "t0") }
    { username := some "ADMIN", password := some "secret1",
      email := some "new@x.com", fullName := some "N" } "t1"
    (by decide) (by decide) (by decide)).1 (by decide)

/-- A concrete account whose profile gets patched. -/
def c8User : User :=
  { id := 1, username := "admin", password := "password", role := "admin",
    email := "admin@eventmanager.com", fullName := "Old Name",
    phone := "+1-555-0100", createdAt := "t0" }

/-- The session of `c8User` (it is the current user). -/
def c8Session : Session :=
  { id := 1, username := "admin", role := "admin",
    email := "admin@eventmanager.com", fullName := "Old Name",
    phone := "+1-555-0100", loginTime := "t1", lastLogin := some "t1" }

/-- A concrete auth state where `c8User` is logged in. -/
def c8State : AuthState :=
  { users := [c8User], currentUser := some c8Session, nextUserId := 2,
    persistedUsers := some [c8User] }

/-- C8: the session-refresh clause fails when the id is passed as a string.
`updateUserProfile` locates the account with `u.id === parseInt(userId)` —
so the string `"1"` addresses account 1 and its `fullName` IS updated — but
the refresh guard compares `this.currentUser.id === userId` against the RAW
argument, and a strict `===` between the number 1 and the string `"1"` is
false, so the session projection of the very account just updated keeps the
stale `fullName`. Passing the id as the number 1 instead does refresh the
session, isolating the missing `parseInt` as the defect. -/
theorem C8_string_id_skips_session_refresh :
    (updateUserProfile c8State (JsVal.str "1")
        { fullName := some "New Name" } "t2").2.users =
      [{ c8User with fullName := "New Name", updatedAt := some "t2" }] ∧
    (updateUserProfile c8State (JsVal.str "1")
        { fullName := some "New Name" } "t2").2.currentUser = some c8Session ∧
    c8Session.fullName = "Old Name" ∧
    (updateUserProfile c8State (JsVal.num 1)
        { fullName := some "New Name" } "t2").2.currentUser =
      some { c8Session with fullName := "New Name", lastLogin := none } := by
  refine ⟨rfl, rfl, rfl, rfl⟩

/-- C7 (witness): an explicitly persisted empty collection is adopted as-is —
construction does not re-seed. -/
theorem C7_witness : (AuthState.init (some []) none "t0").users = [] :=
  (C7_seeds_exactly_once "t0" none).2.2
